import Mathlib

/-!
Shallow embedding of the capital-trading-bot order relay.

The repository contains two variants of the same webhook-to-broker relay:
a Flask variant (src/app.py) and a FastAPI variant (src/main.py).  Both are
embedded here as pure functions.  The external broker is modelled by an
explicit environment (a Broker value describing how the session endpoint and
the order endpoint would answer), and every outbound network call the code
would perform is recorded in an explicit trace, so that statements of the
form "no network call is made" become statements about that trace.

Machine floats of the source are modelled by Rat: the program only parses
short decimal literals, compares them with 0 and passes them through, so no
rounding behaviour is observable in any of the properties treated here.
-/

namespace Relay

/-- Python truthiness of an optional string: None and the empty string are
falsy, every other string is truthy. -/
def truthy : Option String → Bool
  | none => false
  | some s => !(s == "")

/-- matchesAt pat cs is true when pat is an initial segment of cs. -/
def matchesAt : List Char → List Char → Bool
  | [], _ => true
  | _ :: _, [] => false
  | p :: ps, c :: cs => p == c && matchesAt ps cs

/-- occursIn pat cs is true when pat occurs contiguously in cs; this models
the Python substring operator in. -/
def occursIn (pat : List Char) : List Char → Bool
  | [] => matchesAt pat []
  | c :: cs => matchesAt pat (c :: cs) || occursIn pat cs

/-- Python substring test: pat in s. -/
def strContains (s pat : String) : Bool := occursIn pat.data s.data

/-- Python str.startswith. -/
def strStartsWith (s pat : String) : Bool := matchesAt pat.data s.data

/-- Python str.upper, on the ASCII data this program handles. -/
def upper (s : String) : String := String.mk (s.data.map Char.toUpper)

/-- Python str.lower, on the ASCII data this program handles. -/
def lower (s : String) : String := String.mk (s.data.map Char.toLower)

/-- A JSON object flattened to an association list of string keys and string
values; the broker payloads relevant to the claims are flat objects. -/
abbrev JsonObj := List (String × String)

/-- Python dict.get(k) : first binding of k, if any. -/
def dictGet (d : JsonObj) (k : String) : Option String :=
  (d.find? (fun p => p.1 == k)).map (fun p => p.2)

/-- Python dict.get(k, dflt). -/
def dictGetD (d : JsonObj) (k : String) (dflt : String) : String :=
  (dictGet d k).getD dflt

/-- Python key membership: k in d. -/
def hasKey (d : JsonObj) (k : String) : Bool :=
  (d.find? (fun p => p.1 == k)).isSome

/-- Python str.strip removes these whitespace characters. -/
def isPySpace (c : Char) : Bool :=
  c == ' ' || c == '\t' || c == '\n' || c == '\r' || c == '\x0b' || c == '\x0c'

/-- Strip leading and trailing whitespace from a character list. -/
def trimChars (cs : List Char) : List Char :=
  ((cs.dropWhile isPySpace).reverse.dropWhile isPySpace).reverse

/-- Numeric value of a digit list. -/
def digitsVal (cs : List Char) : Nat :=
  cs.foldl (fun a c => a * 10 + (c.toNat - 48)) 0

/-- Unsigned decimal literal: digits, optionally followed by a point and more
digits, with at least one digit overall. -/
def parseUnsigned (cs : List Char) : Option Rat :=
  let ip := cs.takeWhile Char.isDigit
  let rest := cs.dropWhile Char.isDigit
  match rest with
  | [] => if ip.isEmpty then none else some ((digitsVal ip : Nat) : Rat)
  | '.' :: fp =>
    if fp.all Char.isDigit && !(ip.isEmpty && fp.isEmpty) then
      some (((digitsVal ip : Nat) : Rat) + ((digitsVal fp : Nat) : Rat) / ((10 : Rat) ^ fp.length))
    else none
  | _ => none

/-- Python float(str) restricted to plain signed decimal literals, the only
shape this program feeds it; exotic inputs (exponents, inf, nan) do not occur
in any claim and are treated as parse failures. -/
def parsePyFloat (s : String) : Option Rat :=
  match trimChars s.data with
  | '+' :: rest => parseUnsigned rest
  | '-' :: rest => (parseUnsigned rest).map (fun q => -q)
  | cs => parseUnsigned cs

/-- One outbound network call: the session login POST, or the order POST with
the payload fields the claims talk about (instrument, direction, size). -/
inductive NetCall where
  | session : NetCall
  | position (epic : String) (direction : String) (size : Rat) : NetCall
deriving DecidableEq, Repr

/-- How the broker session endpoint would answer: HTTP status, the two token
headers, and the currentAccountId field of the JSON body (none when absent). -/
structure SessionResp where
  status : Nat
  cst : Option String
  xsec : Option String
  currentAccountId : Option String
deriving DecidableEq, Repr

/-- How the broker order endpoint would answer: an HTTP response whose body
parsed as JSON when some, or a transport failure. -/
inductive OrderOutcome where
  | http (status : Nat) (body : Option JsonObj) (text : String)
  | timeout
  | requestError (msg : String)
deriving DecidableEq, Repr

/-- The external broker environment for one request. -/
structure Broker where
  sessionResp : SessionResp
  orderResp : OrderOutcome
deriving DecidableEq, Repr

end Relay

namespace Relay.MainPy

/-- Environment configuration of main.py: CAPITAL_EMAIL, CAPITAL_PASS,
CAPITAL_API_KEY, each possibly unset. -/
structure Config where
  email : Option String
  password : Option String
  apiKey : Option String
deriving DecidableEq, Repr

/-- The guard of get_session_data: not CAPITAL_EMAIL or not CAPITAL_PASS or
not CAPITAL_API_KEY. -/
def missingCreds (cfg : Config) : Bool :=
  !truthy cfg.email || !truthy cfg.password || !truthy cfg.apiKey

/-- The dictionary returned by a successful get_session_data. -/
structure SessionData where
  cst : String
  x_sec_token : String
  account_id : String
deriving DecidableEq, Repr

/-- get_session_data of main.py: refuses without a network call when any
credential is unset; otherwise performs the session POST, fails on a 4xx or
5xx status, and succeeds only when the CST header, the X-SECURITY-TOKEN
header and the currentAccountId body field are all present and non-empty. -/
def get_session_data (cfg : Config) (b : Broker) : Option SessionData × List NetCall :=
  if missingCreds cfg then (none, [])
  else
    let r := b.sessionResp
    if 400 ≤ r.status then (none, [NetCall.session])
    else if truthy r.cst && truthy r.xsec && truthy r.currentAccountId then
      (some ⟨r.cst.getD "", r.xsec.getD "", r.currentAccountId.getD ""⟩, [NetCall.session])
    else (none, [NetCall.session])

/-- The TICKER_TO_EPIC dictionary of main.py, verbatim. -/
def TICKER_TO_EPIC : JsonObj :=
  [("XAUUSD", "GOLD"),
   ("XAGUSD", "SILVER"),
   ("EURUSD", "EURUSD"),
   ("NATURALGAS", "PLACEHOLDER_FIND_NATGAS_EPIC"),
   ("XNGUSD", "PLACEHOLDER_FIND_NATGAS_EPIC")]

/-- The source literal 0.02, as the normalized rational 1/50. -/
def q0_02 : Rat := ⟨1, 50, by norm_num, Nat.coprime_one_left 50⟩

/-- The source literal 0.001, as the normalized rational 1/1000. -/
def q0_001 : Rat := ⟨1, 1000, by norm_num, Nat.coprime_one_left 1000⟩

/-- get_trade_size of main.py: per-symbol default sizes chosen by substring
tests on the upper-cased symbol, in source order; 0.02 and 0.001 are written
as exact rationals. -/
def get_trade_size (symbol : String) : Rat :=
  let u := upper symbol
  if strContains u "XAUUSD" then q0_02
  else if strContains u "XAGUSD" then 10
  else if strContains u "EURUSD" then 10000
  else if strContains u "BTCUSD" then q0_001
  else if strContains u "NATURALGAS" || strContains u "XNGUSD" then 100
  else 1

/-- The size resolution of receive_alert: the size field defaults to the
string "1" when absent; a parse failure or a non-positive parsed value falls
back to get_trade_size. -/
def resolve_size (sizeField : Option String) (symbol : String) : Rat :=
  let size_str := sizeField.getD "1"
  match parsePyFloat size_str with
  | some v => if v ≤ 0 then get_trade_size symbol else v
  | none => get_trade_size symbol

/-- The epic resolution of receive_alert: look the upper-cased symbol up in
TICKER_TO_EPIC; a missing entry, an empty epic, or an epic containing
PLACEHOLDER all count as unresolved. -/
def resolve_epic (symbol : String) : Option String :=
  match dictGet TICKER_TO_EPIC (upper symbol) with
  | none => none
  | some e => if e == "" || strContains (upper e) "PLACEHOLDER" then none else some e

/-- The error dictionary place_order returns when get_session_data fails. -/
def authFailObj : JsonObj :=
  [("error", "Authentication Failed"),
   ("details", "Could not obtain session tokens/accountId. Check email/password/API Key env vars and API connectivity.")]

/-- Textual rendering of a flat JSON object, standing in for the Python str
of the decoded error body; no claim depends on the exact rendering. -/
def pyStrOfObj (d : JsonObj) : String :=
  "\x7b" ++ String.intercalate ", " (d.map (fun p => "\"" ++ p.1 ++ "\": \"" ++ p.2 ++ "\"")) ++ "\x7d"

/-- The details value attached to an HTTP error: the decoded JSON body when
it parses, the raw text otherwise. -/
def orderDetailsText (body : Option JsonObj) (text : String) : String :=
  match body with
  | some j => pyStrOfObj j
  | none => text

/-- place_order of main.py: authenticates first (this is where the session
network call happens), then validates the parameters, then performs the order
POST and translates its outcome into a result dictionary. -/
def place_order (cfg : Config) (b : Broker) (direction : String) (epic : String) (size : Rat) :
    JsonObj × List NetCall :=
  let sd := get_session_data cfg b
  let calls := sd.2
  match sd.1 with
  | none => (authFailObj, calls)
  | some _ =>
    if direction == "" || epic == "" || size == 0 then
      ([("error", "Missing order parameters")], calls)
    else if !(lower direction == "buy" || lower direction == "sell") then
      ([("error", "Invalid direction: " ++ direction)], calls)
    else if size ≤ 0 then
      ([("error", "Invalid size: " ++ toString size)], calls)
    else
      let calls := calls ++ [NetCall.position (upper epic) (upper direction) size]
      match b.orderResp with
      | OrderOutcome.http status body text =>
        if 400 ≤ status then
          ([("error", "HTTP " ++ toString status), ("details", orderDetailsText body text)], calls)
        else
          match body with
          | some j => (j, calls)
          | none => ([("error", "Unknown position processing error"), ("details", text)], calls)
      | OrderOutcome.timeout => ([("error", "Request Timeout")], calls)
      | OrderOutcome.requestError msg => ([("error", "Request failed"), ("details", msg)], calls)

/-- The action validation of receive_alert: not direction or direction.lower()
not in buy/sell rejects. -/
def validDirection : Option String → Bool
  | none => false
  | some s => !(s == "") && (lower s == "buy" || lower s == "sell")

/-- Python rendering of an optional string inside an f-string. -/
def pyShow : Option String → String
  | none => "None"
  | some s => s

/-- The error-to-status translation at the end of receive_alert, returning
the HTTPException status code and detail. -/
def translate_error (result : JsonObj) : Nat × String :=
  let error_detail := dictGetD result "details" (dictGetD result "error" "Unknown Error")
  let ecode := dictGetD result "error" ""
  let status_code :=
    if dictGet result "error" = some "Authentication Failed" then 503
    else if strContains error_detail "\"errorCode\":\"error.market.market-closed\"" then 400
    else if strContains error_detail "\"errorCode\":\"error.insufficient-funds\"" then 400
    else if strContains error_detail "\"errorCode\":\"error.not-found.epic\"" then 400
    else if strStartsWith ecode "HTTP 404" then 404
    else if strStartsWith ecode "HTTP 4" then 400
    else if dictGet result "error" = some "Request Timeout" then 504
    else if dictGet result "error" = some "Request failed" then 502
    else 500
  (status_code, error_detail)

/-- An inbound alert after key lower-casing: the action, symbol and size
fields, each possibly absent. -/
structure Alert where
  action : Option String
  symbol : Option String
  size : Option String
deriving DecidableEq, Repr

/-- The HTTP answer of the /trade endpoint: a raised HTTPException, or the
success object whose status field the code sets to ok and whose
capital_response field embeds the broker body. -/
inductive FastApiResult where
  | httpError (statusCode : Nat) (detail : String)
  | jsonOk (statusField : String) (capital_response : JsonObj)
deriving DecidableEq, Repr

/-- receive_alert of main.py: validates symbol and action, resolves the epic,
resolves the size (defaulting silently), places the order, and classifies the
result dictionary by the presence of an error key. -/
def receive_alert (cfg : Config) (b : Broker) (a : Alert) : FastApiResult × List NetCall :=
  if truthy a.symbol = false then
    (FastApiResult.httpError 400 "\x27symbol\x27 missing from webhook data", [])
  else if validDirection a.action = false then
    (FastApiResult.httpError 400
      ("Invalid action: " ++ pyShow a.action ++ ". Expected \x27buy\x27 or \x27sell\x27."), [])
  else
    match resolve_epic (a.symbol.getD "") with
    | none =>
      (FastApiResult.httpError 400
        ("Epic mapping not found/configured for symbol: " ++ a.symbol.getD ""), [])
    | some epic =>
      let size := resolve_size a.size (a.symbol.getD "")
      let pr := place_order cfg b (a.action.getD "") epic size
      if hasKey pr.1 "error" then
        (FastApiResult.httpError (translate_error pr.1).1 (translate_error pr.1).2, pr.2)
      else
        (FastApiResult.jsonOk "ok" pr.1, pr.2)

end Relay.MainPy

namespace Relay.AppPy

/-- Environment configuration of app.py: CAPITAL_API_KEY, CAPITAL_PASSWORD,
CAPITAL_API_ENDPOINT, WEBHOOK_SECRET, each possibly unset. -/
structure Config where
  apiKey : Option String
  password : Option String
  endpoint : Option String
  webhookSecret : Option String
deriving DecidableEq, Repr

/-- The guard of get_capital_session_tokens: not CAPITAL_API_KEY or not
CAPITAL_PASSWORD or not CAPITAL_API_ENDPOINT. -/
def missingCreds (cfg : Config) : Bool :=
  !truthy cfg.apiKey || !truthy cfg.password || !truthy cfg.endpoint

/-- get_capital_session_tokens of app.py: refuses without a network call when
any credential is unset; otherwise performs the session POST, fails on a 4xx
or 5xx status, and fails when either the CST or the X-SECURITY-TOKEN header
is absent or empty. -/
def get_capital_session_tokens (cfg : Config) (b : Broker) :
    (Option String × Option String) × List NetCall :=
  if missingCreds cfg then ((none, none), [])
  else
    let r := b.sessionResp
    if 400 ≤ r.status then ((none, none), [NetCall.session])
    else if !truthy r.cst || !truthy r.xsec then ((none, none), [NetCall.session])
    else ((r.cst, r.xsec), [NetCall.session])

/-- The parsed webhook body of app.py: the fields the code reads, each absent
when the key is missing.  The order_type field only feeds the payload and no
claim concerns it. -/
structure Signal where
  symbol : Option String
  action : Option String
  quantity : Option String
  order_type : Option String
  secret_key : Option String
deriving DecidableEq, Repr

/-- The direction translation of place_capital_order: BUY when the action
field lower-cases to buy (a missing action reads as the empty string), SELL
in every other case. -/
def signalDirection (action : Option String) : String :=
  if lower (action.getD "") == "buy" then "BUY" else "SELL"

/-- place_capital_order of app.py: requires both tokens, builds the payload
(where float(quantity) may fail, rejecting before the order POST), performs
the order POST and translates its outcome. -/
def place_capital_order (cfg : Config) (b : Broker) (s : Signal)
    (cst : Option String) (sec : Option String) : (Bool × JsonObj) × List NetCall :=
  if !truthy cst || !truthy sec then
    ((false, [("error", "Missing authentication tokens")]), [])
  else
    match s.quantity.bind parsePyFloat with
    | none => ((false, [("error", "Invalid signal data format")]), [])
    | some size =>
      let direction := signalDirection s.action
      let calls := [NetCall.position (s.symbol.getD "") direction size]
      match b.orderResp with
      | OrderOutcome.http status body text =>
        if 400 ≤ status then
          (match body with
           | some j => ((false, j), calls)
           | none => ((false, [("error", "API Error " ++ toString status),
                               ("details", text.take 500)]), calls))
        else
          match body with
          | some j => ((true, j), calls)
          | none => ((false, [("error", "Unexpected error: JSON decode failed")]), calls)
      | OrderOutcome.timeout => ((false, [("error", "timeout")]), calls)
      | OrderOutcome.requestError msg => ((false, [("error", msg)]), calls)

/-- The HTTP answer of the /webhook endpoint of app.py: an abort, or a JSON
response whose status field the code sets to success or error. -/
inductive FlaskAnswer where
  | aborted (status : Nat) (description : String)
  | response (statusField : String) (message : String) (details : Option JsonObj) (httpStatus : Nat)
deriving DecidableEq, Repr

/-- The part of tradingview_webhook after the secret check: the required-field
check (key membership only), then authentication, then order placement; the
authentication network call precedes every signal-content validation. -/
def webhook_main (cfg : Config) (b : Broker) (s : Signal) : FlaskAnswer × List NetCall :=
  if !(s.symbol.isSome && s.action.isSome && s.quantity.isSome) then
    (FlaskAnswer.response "error" "Missing required fields in signal" none 400, [])
  else
    let ts := get_capital_session_tokens cfg b
    if !truthy ts.1.1 || !truthy ts.1.2 then
      (FlaskAnswer.response "error" "Capital.com authentication failed" none 500, ts.2)
    else
      let po := place_capital_order cfg b s ts.1.1 ts.1.2
      if po.1.1 then
        (FlaskAnswer.response "success" "Trade signal processed" (some po.1.2) 200, ts.2 ++ po.2)
      else
        (FlaskAnswer.response "error" "Failed to place Capital.com order" (some po.1.2) 500, ts.2 ++ po.2)

/-- tradingview_webhook of app.py: the optional secret verification, the
empty-body abort, then webhook_main.  A data value of none models a missing
or non-JSON request body. -/
def tradingview_webhook (cfg : Config) (b : Broker) (data : Option Signal) :
    FlaskAnswer × List NetCall :=
  match data with
  | none => (FlaskAnswer.aborted 400 "Empty request body.", [])
  | some s =>
    if truthy cfg.webhookSecret && !(s.secret_key == cfg.webhookSecret) then
      (FlaskAnswer.aborted 403 "Invalid secret key.", [])
    else
      webhook_main cfg b s

end Relay.AppPy

namespace Relay

/-- A session answer delivering both tokens and an account id with status
200. -/
def goodSession : SessionResp := ⟨200, some "cst123", some "sec456", some "acc789"⟩

/-- A broker order body used by the concrete runs. -/
def okOrderBody : JsonObj := [("dealReference", "DR1")]

/-- A broker that authenticates and accepts the order. -/
def goodBroker : Broker := ⟨goodSession, OrderOutcome.http 200 (some okOrderBody) "ok"⟩

/-- A broker whose session endpoint rejects the login with a 401. -/
def broker401 : Broker := ⟨⟨401, none, none, none⟩, OrderOutcome.http 200 (some okOrderBody) "ok"⟩

/-- A broker whose order endpoint answers 200 with a body carrying a
top-level error key. -/
def broker200err : Broker := ⟨goodSession, OrderOutcome.http 200 (some [("error", "boom")]) "t"⟩

/-- A complete main.py configuration. -/
def goodCfg : MainPy.Config := ⟨some "user at example", some "pw", some "key"⟩

/-- A main.py configuration with CAPITAL_EMAIL unset. -/
def cfgMissingEmail : MainPy.Config := ⟨none, some "pw", some "key"⟩

/-- A complete app.py configuration with no webhook secret. -/
def goodAppCfg : AppPy.Config := ⟨some "key", some "pw", some "https://api", none⟩

/-- A well-formed buy alert for a mapped symbol. -/
def alertBuy : MainPy.Alert := ⟨some "buy", some "XAUUSD", some "2"⟩

/-- An app.py signal whose action is the unrecognized word close. -/
def sigClose : AppPy.Signal := ⟨some "XAUUSD", some "close", some "2", none, none⟩

/-- A well-formed app.py buy signal. -/
def sigBuyApp : AppPy.Signal := ⟨some "XAUUSD", some "buy", some "2", none, none⟩

/-- A broker whose session endpoint answers 200 but omits the CST header. -/
def brokerNoCst : Broker :=
  ⟨⟨200, none, some "sec456", some "acc789"⟩, OrderOutcome.http 200 (some okOrderBody) "ok"⟩

end Relay

namespace Relay.MainPy

theorem gsd_trace (cfg : Config) (b : Broker) (c : NetCall)
    (h : c ∈ (get_session_data cfg b).2) : c = NetCall.session := by
  unfold get_session_data at h
  dsimp only at h
  split at h
  · simp at h
  · split at h
    · simp at h; exact h
    · split at h
      · simp at h; exact h
      · simp at h; exact h

theorem gsd_missing_tokens (cfg : Config) (b : Broker)
    (h : (!truthy b.sessionResp.cst || !truthy b.sessionResp.xsec
          || !truthy b.sessionResp.currentAccountId) = true) :
    (get_session_data cfg b).1 = none := by
  unfold get_session_data
  dsimp only
  split
  · rfl
  · split
    · rfl
    · split
      · rename_i hc
        simp only [Bool.or_eq_true, Bool.not_eq_true'] at h
        rcases h with (h | h) | h <;> rw [h] at hc <;> simp at hc
      · rfl

theorem po_authfail (cfg : Config) (b : Broker) (d e : String) (q : Rat)
    (h : (get_session_data cfg b).1 = none) :
    place_order cfg b d e q = (authFailObj, (get_session_data cfg b).2) := by
  unfold place_order
  dsimp only
  rw [h]

theorem po_trace (cfg : Config) (b : Broker) (d e : String) (q : Rat) (c : NetCall)
    (h : c ∈ (place_order cfg b d e q).2) :
    c = NetCall.session ∨ c = NetCall.position (upper e) (upper d) q := by
  unfold place_order at h
  dsimp only at h
  rcases hg : (get_session_data cfg b).1 with _ | sd
  all_goals rw [hg] at h
  · exact Or.inl (gsd_trace cfg b c h)
  · dsimp only at h
    split at h
    · exact Or.inl (gsd_trace cfg b c h)
    · split at h
      · exact Or.inl (gsd_trace cfg b c h)
      · split at h
        · exact Or.inl (gsd_trace cfg b c h)
        · cases ho : b.orderResp with
          | http st body tx =>
            rw [ho] at h
            dsimp only at h
            split at h
            · rcases List.mem_append.mp h with h2 | h2
              · exact Or.inl (gsd_trace cfg b c h2)
              · simp at h2; exact Or.inr h2
            · rcases hb : body with _ | j
              · rw [hb] at h
                dsimp only at h
                rcases List.mem_append.mp h with h2 | h2
                · exact Or.inl (gsd_trace cfg b c h2)
                · simp at h2; exact Or.inr h2
              · rw [hb] at h
                dsimp only at h
                rcases List.mem_append.mp h with h2 | h2
                · exact Or.inl (gsd_trace cfg b c h2)
                · simp at h2; exact Or.inr h2
          | timeout =>
            rw [ho] at h
            dsimp only at h
            rcases List.mem_append.mp h with h2 | h2
            · exact Or.inl (gsd_trace cfg b c h2)
            · simp at h2; exact Or.inr h2
          | requestError msg =>
            rw [ho] at h
            dsimp only at h
            rcases List.mem_append.mp h with h2 | h2
            · exact Or.inl (gsd_trace cfg b c h2)
            · simp at h2; exact Or.inr h2

end Relay.MainPy

namespace Relay.MainPy

theorem po_result_cases (cfg : Config) (b : Broker) (d e : String) (q : Rat) :
    hasKey (place_order cfg b d e q).1 "error" = true ∨
    ∃ st tx, b.orderResp = OrderOutcome.http st (some (place_order cfg b d e q).1) tx ∧ st < 400 := by
  unfold place_order
  dsimp only
  rcases hg : (get_session_data cfg b).1 with _ | sd
  · exact Or.inl rfl
  · dsimp only
    split
    · exact Or.inl rfl
    · split
      · exact Or.inl rfl
      · split
        · exact Or.inl rfl
        · cases ho : b.orderResp with
          | http st body tx =>
            dsimp only
            split
            · exact Or.inl rfl
            · rcases hb : body with _ | j
              · exact Or.inl rfl
              · rename_i hlt
                exact Or.inr ⟨st, tx, rfl, by omega⟩
          | timeout => exact Or.inl rfl
          | requestError msg => exact Or.inl rfl

theorem ra_trace_sub (cfg : Config) (b : Broker) (a : Alert) (c : NetCall)
    (h : c ∈ (receive_alert cfg b a).2) :
    ∃ epic, resolve_epic (a.symbol.getD "") = some epic ∧
      c ∈ (place_order cfg b (a.action.getD "") epic
            (resolve_size a.size (a.symbol.getD ""))).2 := by
  unfold receive_alert at h
  dsimp only at h
  split at h
  · simp at h
  · split at h
    · simp at h
    · rcases he : resolve_epic (a.symbol.getD "") with _ | epic
      · rw [he] at h
        simp at h
      · rw [he] at h
        dsimp only at h
        split at h
        · exact ⟨epic, rfl, h⟩
        · exact ⟨epic, rfl, h⟩

theorem ra_jsonOk (cfg : Config) (b : Broker) (a : Alert) (st : String) (body : JsonObj)
    (h : (receive_alert cfg b a).1 = FastApiResult.jsonOk st body) :
    st = "ok" ∧ hasKey body "error" = false ∧
      ∃ code tx, b.orderResp = OrderOutcome.http code (some body) tx ∧ code < 400 := by
  unfold receive_alert at h
  dsimp only at h
  split at h
  · exact absurd h (by simp)
  · split at h
    · exact absurd h (by simp)
    · rcases he : resolve_epic (a.symbol.getD "") with _ | epic
      · rw [he] at h
        exact absurd h (by simp)
      · rw [he] at h
        dsimp only at h
        split at h
        · exact absurd h (by simp)
        · rename_i hk
          rcases h
          rcases po_result_cases cfg b (a.action.getD "") epic
              (resolve_size a.size (a.symbol.getD "")) with hc | ⟨code, tx, ho, hlt⟩
          · exact absurd hc (by simpa using hk)
          · exact ⟨rfl, by simpa using hk, code, tx, ho, hlt⟩

end Relay.MainPy

namespace Relay.AppPy

theorem gst_trace (cfg : Config) (b : Broker) (c : NetCall)
    (h : c ∈ (get_capital_session_tokens cfg b).2) : c = NetCall.session := by
  unfold get_capital_session_tokens at h
  dsimp only at h
  split at h
  · simp at h
  · split at h
    · simp at h; exact h
    · split at h
      · simp at h; exact h
      · simp at h; exact h

theorem gst_missing_tokens (cfg : Config) (b : Broker)
    (h : (!truthy b.sessionResp.cst || !truthy b.sessionResp.xsec) = true) :
    (get_capital_session_tokens cfg b).1 = (none, none) := by
  unfold get_capital_session_tokens
  dsimp only
  split
  · rfl
  · split <;> rfl

theorem pco_trace (cfg : Config) (b : Broker) (s : Signal)
    (cst sec : Option String) (c : NetCall)
    (h : c ∈ (place_capital_order cfg b s cst sec).2) :
    ∃ q, c = NetCall.position (s.symbol.getD "") (signalDirection s.action) q := by
  unfold place_capital_order at h
  dsimp only at h
  split at h
  · simp at h
  · rcases hq : s.quantity.bind parsePyFloat with _ | size
    · rw [hq] at h
      simp at h
    · rw [hq] at h
      dsimp only at h
      cases ho : b.orderResp with
      | http st body tx =>
        rw [ho] at h
        dsimp only at h
        split at h
        · rcases hb : body with _ | j
          · rw [hb] at h
            simp at h
            exact ⟨size, h⟩
          · rw [hb] at h
            simp at h
            exact ⟨size, h⟩
        · rcases hb : body with _ | j
          · rw [hb] at h
            simp at h
            exact ⟨size, h⟩
          · rw [hb] at h
            simp at h
            exact ⟨size, h⟩
      | timeout =>
        rw [ho] at h
        simp at h
        exact ⟨size, h⟩
      | requestError msg =>
        rw [ho] at h
        simp at h
        exact ⟨size, h⟩

theorem webhook_trace (cfg : Config) (b : Broker) (data : Option Signal) (c : NetCall)
    (h : c ∈ (tradingview_webhook cfg b data).2) :
    c = NetCall.session ∨
      ∃ s q, data = some s ∧
        c = NetCall.position (s.symbol.getD "") (signalDirection s.action) q := by
  unfold tradingview_webhook at h
  rcases data with _ | s
  · simp at h
  · dsimp only at h
    split at h
    · simp at h
    · unfold webhook_main at h
      dsimp only at h
      split at h
      · simp at h
      · split at h
        · exact Or.inl (gst_trace cfg b c h)
        · split at h
          · rcases List.mem_append.mp h with h2 | h2
            · exact Or.inl (gst_trace cfg b c h2)
            · rcases pco_trace cfg b s _ _ c h2 with ⟨q, hq⟩
              exact Or.inr ⟨s, q, rfl, hq⟩
          · rcases List.mem_append.mp h with h2 | h2
            · exact Or.inl (gst_trace cfg b c h2)
            · rcases pco_trace cfg b s _ _ c h2 with ⟨q, hq⟩
              exact Or.inr ⟨s, q, rfl, hq⟩

end Relay.AppPy

namespace Relay

/-- C1: counterexample.  The claim says every alert whose action is outside
buy/sell or whose size is not strictly positive is rejected before any
network call.  In app.py the alert with action sideways and size -5 is
instead processed end to end: the session call and the order call are both
made, with direction SELL and the negative size. -/
theorem C1_counterexample :
    lower "sideways" ≠ "buy" ∧ lower "sideways" ≠ "sell" ∧ ((-5 : Rat) ≤ 0) ∧
    (AppPy.tradingview_webhook goodAppCfg goodBroker
        (some ⟨some "XAUUSD", some "sideways", some "-5", none, none⟩)).2
      = [NetCall.session, NetCall.position "XAUUSD" "SELL" (-5)] := by
  decide

/-- C1 (amended): in main.py every alert whose action is missing, empty, or
not buy/sell case-insensitively is rejected with a 400 before any network
call; the size prong of the original claim fails (see the counterexample). -/
theorem C1_amended_thm (cfg : MainPy.Config) (b : Broker) (a : MainPy.Alert)
    (h : MainPy.validDirection a.action = false) :
    (MainPy.receive_alert cfg b a).2 = [] ∧
    ∃ det, (MainPy.receive_alert cfg b a).1 = MainPy.FastApiResult.httpError 400 det := by
  unfold MainPy.receive_alert
  dsimp only
  split
  · exact ⟨rfl, _, rfl⟩
  · exact ⟨rfl, _, rfl⟩

/-- C1 (witness): the amended theorem applied to the alert with action
sideways. -/
theorem C1_witness :
    (MainPy.receive_alert goodCfg goodBroker ⟨some "sideways", some "XAUUSD", some "2"⟩).2 = [] ∧
    ∃ det, (MainPy.receive_alert goodCfg goodBroker ⟨some "sideways", some "XAUUSD", some "2"⟩).1
        = MainPy.FastApiResult.httpError 400 det :=
  C1_amended_thm goodCfg goodBroker ⟨some "sideways", some "XAUUSD", some "2"⟩ (by decide)

/-- C2: counterexample.  With size omitted for XAUUSD, main.py submits size
1 (the hard-coded string default), while the per-symbol default table gives
0.02 = 1/50 for XAUUSD, so the resolved size does not equal the per-symbol
default. -/
theorem C2_counterexample :
    (MainPy.receive_alert goodCfg goodBroker ⟨some "buy", some "XAUUSD", none⟩).2
      = [NetCall.session, NetCall.position "GOLD" "BUY" 1] ∧
    MainPy.get_trade_size "XAUUSD" = MainPy.q0_02 ∧
    (MainPy.q0_02).num = 1 ∧ (MainPy.q0_02).den = 50 ∧ (1 : Rat) ≠ MainPy.q0_02 := by
  decide

/-- C2 (amended): when size is omitted the resolved size is the constant 1,
independent of the symbol (and in particular strictly positive); the static
per-symbol table is not consulted for omitted sizes. -/
theorem C2_amended_thm :
    (∀ symbol, MainPy.resolve_size none symbol = 1) ∧
    ∀ (cfg : MainPy.Config) (b : Broker) (a : MainPy.Alert) (e d : String) (q : Rat),
      a.size = none →
      NetCall.position e d q ∈ (MainPy.receive_alert cfg b a).2 → q = 1 := by
  have h1 : ∀ symbol, MainPy.resolve_size none symbol = 1 := by
    intro symbol
    unfold MainPy.resolve_size
    have hp : parsePyFloat "1" = some 1 := by decide
    have h10 : ¬((1 : Rat) ≤ 0) := by norm_num
    simp [hp, h10]
  refine ⟨h1, ?_⟩
  intro cfg b a e d q hsz hmem
  rcases MainPy.ra_trace_sub cfg b a _ hmem with ⟨epic, _, hmem2⟩
  rcases MainPy.po_trace cfg b _ epic _ _ hmem2 with hses | hpos
  · exact absurd hses (by simp)
  · injection hpos with he1 hd1 hq1
    rw [hq1, hsz, h1]

/-- C2 (witness): the amended theorem applied to a buy alert for XAUUSD with
size omitted, on which the order call with size 1 actually happens. -/
theorem C2_witness :
    NetCall.position "GOLD" "BUY" 1 ∈
      (MainPy.receive_alert goodCfg goodBroker ⟨some "buy", some "XAUUSD", none⟩).2 ∧
    (1 : Rat) = 1 :=
  ⟨by decide,
   C2_amended_thm.2 goodCfg goodBroker ⟨some "buy", some "XAUUSD", none⟩ "GOLD" "BUY" 1 rfl (by decide)⟩

/-- C3: when the session endpoint answers with an HTTP success but a required
element is missing (CST header, X-SECURITY-TOKEN header, or in main.py the
currentAccountId body field), both variants report an authentication failure
and never make the order network call. -/
theorem C3_thm :
    (∀ (cfg : MainPy.Config) (b : Broker) (d e : String) (q : Rat),
        b.sessionResp.status < 400 →
        (!truthy b.sessionResp.cst || !truthy b.sessionResp.xsec
          || !truthy b.sessionResp.currentAccountId) = true →
        dictGet (MainPy.place_order cfg b d e q).1 "error" = some "Authentication Failed" ∧
        ∀ c ∈ (MainPy.place_order cfg b d e q).2, c = NetCall.session) ∧
    (∀ (cfg : MainPy.Config) (b : Broker) (a : MainPy.Alert),
        b.sessionResp.status < 400 →
        (!truthy b.sessionResp.cst || !truthy b.sessionResp.xsec
          || !truthy b.sessionResp.currentAccountId) = true →
        ∀ c ∈ (MainPy.receive_alert cfg b a).2, c = NetCall.session) ∧
    (∀ (cfg : AppPy.Config) (b : Broker),
        b.sessionResp.status < 400 →
        (!truthy b.sessionResp.cst || !truthy b.sessionResp.xsec) = true →
        (AppPy.get_capital_session_tokens cfg b).1 = (none, none)) ∧
    (∀ (cfg : AppPy.Config) (b : Broker) (s : AppPy.Signal),
        b.sessionResp.status < 400 →
        (!truthy b.sessionResp.cst || !truthy b.sessionResp.xsec) = true →
        truthy cfg.webhookSecret = false →
        (s.symbol.isSome && s.action.isSome && s.quantity.isSome) = true →
        (AppPy.tradingview_webhook cfg b (some s)).1
            = AppPy.FlaskAnswer.response "error" "Capital.com authentication failed" none 500 ∧
        ∀ c ∈ (AppPy.tradingview_webhook cfg b (some s)).2, c = NetCall.session) := by
  refine ⟨?_, ?_, ?_, ?_⟩
  · intro cfg b d e q _ h2
    have hn := MainPy.gsd_missing_tokens cfg b h2
    have hpo := MainPy.po_authfail cfg b d e q hn
    constructor
    · rw [hpo]
      rfl
    · intro c hc
      rw [hpo] at hc
      exact MainPy.gsd_trace cfg b c hc
  · intro cfg b a _ h2 c hc
    rcases MainPy.ra_trace_sub cfg b a c hc with ⟨epic, _, hm⟩
    have hn := MainPy.gsd_missing_tokens cfg b h2
    rw [MainPy.po_authfail cfg b _ epic _ hn] at hm
    exact MainPy.gsd_trace cfg b c hm
  · intro cfg b _ h2
    exact AppPy.gst_missing_tokens cfg b h2
  · intro cfg b s _ h2 hsec hflds
    have hts := AppPy.gst_missing_tokens cfg b h2
    have hw : AppPy.tradingview_webhook cfg b (some s)
        = (AppPy.FlaskAnswer.response "error" "Capital.com authentication failed" none 500,
           (AppPy.get_capital_session_tokens cfg b).2) := by
      unfold AppPy.tradingview_webhook
      dsimp only
      rw [if_neg (by rw [hsec]; simp)]
      unfold AppPy.webhook_main
      dsimp only
      rw [if_neg (by rw [hflds]; simp), hts]
      simp [truthy]
    constructor
    · rw [hw]
    · intro c hc
      rw [hw] at hc
      exact AppPy.gst_trace cfg b c hc

/-- C3 (witness): both conjunct families applied to a broker that answers
the session call with 200 but without the CST header. -/
theorem C3_witness :
    dictGet (MainPy.place_order goodCfg brokerNoCst "buy" "GOLD" 2).1 "error"
        = some "Authentication Failed" ∧
    (∀ c ∈ (MainPy.receive_alert goodCfg brokerNoCst alertBuy).2, c = NetCall.session) ∧
    (AppPy.get_capital_session_tokens goodAppCfg brokerNoCst).1 = (none, none) ∧
    (AppPy.tradingview_webhook goodAppCfg brokerNoCst (some sigBuyApp)).1
        = AppPy.FlaskAnswer.response "error" "Capital.com authentication failed" none 500 :=
  ⟨(C3_thm.1 goodCfg brokerNoCst "buy" "GOLD" 2 (by decide) (by decide)).1,
   C3_thm.2.1 goodCfg brokerNoCst alertBuy (by decide) (by decide),
   C3_thm.2.2.1 goodAppCfg brokerNoCst (by decide) (by decide),
   (C3_thm.2.2.2 goodAppCfg brokerNoCst sigBuyApp (by decide) (by decide) (by decide) (by decide)).1⟩

/-- C4: counterexample.  The alert for XAUUSD with the unparsable size abc is
not rejected and not reported as a client error: main.py silently replaces
the size with the per-symbol default 0.02 and completes the order, making
both network calls. -/
theorem C4_counterexample :
    parsePyFloat "abc" = none ∧
    MainPy.receive_alert goodCfg goodBroker ⟨some "buy", some "XAUUSD", some "abc"⟩
      = (MainPy.FastApiResult.jsonOk "ok" okOrderBody,
         [NetCall.session, NetCall.position "GOLD" "BUY" MainPy.q0_02]) := by
  decide

/-- C4 (amended): an unparsable or non-positive size value is silently
replaced by the per-symbol default (which is always strictly positive) and
the request proceeds; it is not rejected and not reported to the caller. -/
theorem C4_amended_thm :
    (∀ symbol sz, parsePyFloat sz = none →
        MainPy.resolve_size (some sz) symbol = MainPy.get_trade_size symbol) ∧
    (∀ symbol sz v, parsePyFloat sz = some v → v ≤ 0 →
        MainPy.resolve_size (some sz) symbol = MainPy.get_trade_size symbol) ∧
    (∀ symbol, 0 < MainPy.get_trade_size symbol) := by
  refine ⟨?_, ?_, ?_⟩
  · intro symbol sz hp
    unfold MainPy.resolve_size
    simp [hp]
  · intro symbol sz v hp hv
    unfold MainPy.resolve_size
    simp [hp, hv]
  · intro symbol
    unfold MainPy.get_trade_size
    dsimp only
    split
    · decide
    · split
      · decide
      · split
        · decide
        · split
          · decide
          · split
            · decide
            · decide

/-- C4 (witness): the amended theorem applied to the unparsable size abc and
to the non-positive size -5. -/
theorem C4_witness :
    MainPy.resolve_size (some "abc") "XAUUSD" = MainPy.get_trade_size "XAUUSD" ∧
    MainPy.resolve_size (some "-5") "EURUSD" = MainPy.get_trade_size "EURUSD" ∧
    (0 : Rat) < MainPy.get_trade_size "XAUUSD" :=
  ⟨C4_amended_thm.1 "XAUUSD" "abc" (by decide),
   C4_amended_thm.2.1 "EURUSD" "-5" (-5) (by decide) (by norm_num),
   C4_amended_thm.2.2 "XAUUSD"⟩

/-- C5: an alert with a valid action whose upper-cased ticker is absent from
TICKER_TO_EPIC is answered with a 400 naming the symbol, and no network call
is made. -/
theorem C5_thm (cfg : MainPy.Config) (b : Broker) (a : MainPy.Alert) (s d : String)
    (hs : a.symbol = some s) (hs2 : s ≠ "") (hd : a.action = some d)
    (hvd : MainPy.validDirection (some d) = true)
    (hm : dictGet MainPy.TICKER_TO_EPIC (upper s) = none) :
    (MainPy.receive_alert cfg b a).1
        = MainPy.FastApiResult.httpError 400
            ("Epic mapping not found/configured for symbol: " ++ s) ∧
    (MainPy.receive_alert cfg b a).2 = [] := by
  have htr : truthy a.symbol = true := by
    rw [hs]; simp [truthy, hs2]
  have hre : MainPy.resolve_epic s = none := by
    unfold MainPy.resolve_epic; rw [hm]
  unfold MainPy.receive_alert
  dsimp only
  rw [if_neg (by rw [htr]; simp), if_neg (by rw [hd, hvd]; simp)]
  rw [hs]
  dsimp only [Option.getD]
  rw [hre]
  exact ⟨rfl, rfl⟩

/-- C5 (witness): the theorem applied to the unmapped ticker UNKNOWN. -/
theorem C5_witness :
    (MainPy.receive_alert goodCfg goodBroker ⟨some "buy", some "UNKNOWN", none⟩).1
        = MainPy.FastApiResult.httpError 400
            ("Epic mapping not found/configured for symbol: " ++ "UNKNOWN") ∧
    (MainPy.receive_alert goodCfg goodBroker ⟨some "buy", some "UNKNOWN", none⟩).2 = [] :=
  C5_thm goodCfg goodBroker ⟨some "buy", some "UNKNOWN", none⟩ "UNKNOWN" "buy"
    rfl (by decide) rfl (by decide) (by decide)

end Relay

namespace Relay

/-- C6: counterexample.  With CAPITAL_EMAIL unset, main.py answers the alert
with exactly the same HTTPException (503, same detail text) as it does when
the credentials are present but the broker rejects the login with a 401: the
two failures are not distinguishable to the caller, although the missing
configuration case indeed makes no network call. -/
theorem C6_counterexample :
    (MainPy.receive_alert cfgMissingEmail goodBroker alertBuy).1
      = (MainPy.receive_alert goodCfg broker401 alertBuy).1 ∧
    (MainPy.receive_alert cfgMissingEmail goodBroker alertBuy).2 = [] ∧
    (MainPy.receive_alert goodCfg broker401 alertBuy).2 = [NetCall.session] := by
  decide

/-- C6 (amended): a missing configuration value prevents the session network
call, but the resulting error object is the very same generic authentication
failure that a runtime login rejection produces. -/
theorem C6_amended_thm :
    (∀ (cfg : MainPy.Config) (b : Broker) (d e : String) (q : Rat),
        MainPy.missingCreds cfg = true →
        MainPy.get_session_data cfg b = (none, []) ∧
        MainPy.place_order cfg b d e q = (MainPy.authFailObj, [])) ∧
    (∀ (cfg : MainPy.Config) (b : Broker) (d e : String) (q : Rat),
        MainPy.missingCreds cfg = false →
        400 ≤ b.sessionResp.status →
        MainPy.place_order cfg b d e q = (MainPy.authFailObj, [NetCall.session])) := by
  constructor
  · intro cfg b d e q h
    have hg : MainPy.get_session_data cfg b = (none, []) := by
      unfold MainPy.get_session_data
      rw [if_pos h]
    refine ⟨hg, ?_⟩
    have hp := MainPy.po_authfail cfg b d e q (by rw [hg])
    rw [hp, hg]
  · intro cfg b d e q h h2
    have hg : MainPy.get_session_data cfg b = (none, [NetCall.session]) := by
      unfold MainPy.get_session_data
      dsimp only
      rw [if_neg (by rw [h]; simp), if_pos h2]
    have hp := MainPy.po_authfail cfg b d e q (by rw [hg])
    rw [hp, hg]

/-- C6 (witness): the amended theorem applied to the configuration with
CAPITAL_EMAIL unset, and to the full configuration with a 401 login. -/
theorem C6_witness :
    (MainPy.get_session_data cfgMissingEmail goodBroker = (none, []) ∧
     MainPy.place_order cfgMissingEmail goodBroker "buy" "GOLD" 2
        = (MainPy.authFailObj, [])) ∧
    MainPy.place_order goodCfg broker401 "buy" "GOLD" 2
        = (MainPy.authFailObj, [NetCall.session]) :=
  ⟨C6_amended_thm.1 cfgMissingEmail goodBroker "buy" "GOLD" 2 (by decide),
   C6_amended_thm.2 goodCfg broker401 "buy" "GOLD" 2 (by decide) (by decide)⟩

/-- C7: counterexample.  NATURALGAS is present as a key of TICKER_TO_EPIC,
yet resolution does not succeed: its epic is a PLACEHOLDER value, so
receive_alert rejects the alert with a 400 as if the symbol were unmapped. -/
theorem C7_counterexample :
    hasKey MainPy.TICKER_TO_EPIC "NATURALGAS" = true ∧
    (MainPy.receive_alert goodCfg goodBroker ⟨some "buy", some "NATURALGAS", some "2"⟩).1
      = MainPy.FastApiResult.httpError 400
          "Epic mapping not found/configured for symbol: NATURALGAS" ∧
    (MainPy.receive_alert goodCfg goodBroker ⟨some "buy", some "NATURALGAS", some "2"⟩).2 = [] := by
  decide

/-- C7 (amended): resolution is case-independent (the symbol is upper-cased
before lookup), and every key whose epic is not a PLACEHOLDER resolves
deterministically to that epic under any casing. -/
theorem C7_amended_thm :
    (∀ s t : String, upper s = upper t → MainPy.resolve_epic s = MainPy.resolve_epic t) ∧
    ∀ k e, (k, e) ∈ MainPy.TICKER_TO_EPIC →
      strContains (upper e) "PLACEHOLDER" = false →
      ∀ s, upper s = k → MainPy.resolve_epic s = some e := by
  constructor
  · intro s t h
    unfold MainPy.resolve_epic
    rw [h]
  · intro k e hke hple s hu
    unfold MainPy.resolve_epic
    rw [hu]
    simp only [MainPy.TICKER_TO_EPIC, List.mem_cons, List.not_mem_nil, or_false,
      Prod.mk.injEq] at hke
    rcases hke with ⟨hk, he⟩ | ⟨hk, he⟩ | ⟨hk, he⟩ | ⟨hk, he⟩ | ⟨hk, he⟩
    · subst hk; subst he; decide
    · subst hk; subst he; decide
    · subst hk; subst he; decide
    · subst he; exact absurd hple (by decide)
    · subst he; exact absurd hple (by decide)

/-- C7 (witness): the amended theorem applied to the key XAUUSD and the
mixed-case ticker xauUsd. -/
theorem C7_witness :
    MainPy.resolve_epic "xauUsd" = some "GOLD" ∧
    MainPy.resolve_epic "xauUsd" = MainPy.resolve_epic "XAUUSD" :=
  ⟨C7_amended_thm.2 "XAUUSD" "GOLD" (by decide) (by decide) "xauUsd" (by decide),
   C7_amended_thm.1 "xauUsd" "XAUUSD" (by decide)⟩

/-- C8: counterexample.  On a fully successful run, app.py answers with a
JSON object whose status field is success, not ok, so the claimed response
shape (status ok in both variants) fails on app.py; the broker body is still
embedded unmodified, under details. -/
theorem C8_counterexample :
    (AppPy.tradingview_webhook goodAppCfg goodBroker (some sigBuyApp)).1
      = AppPy.FlaskAnswer.response "success" "Trade signal processed" (some okOrderBody) 200 ∧
    "success" ≠ "ok" := by
  decide

/-- C8 (amended): in main.py every successful answer has status field ok and
embeds, unmodified, exactly the JSON body the broker order endpoint answered
with (under an HTTP success status). -/
theorem C8_amended_thm (cfg : MainPy.Config) (b : Broker) (a : MainPy.Alert)
    (st : String) (body : JsonObj)
    (h : (MainPy.receive_alert cfg b a).1 = MainPy.FastApiResult.jsonOk st body) :
    st = "ok" ∧ ∃ code tx, b.orderResp = OrderOutcome.http code (some body) tx ∧ code < 400 := by
  obtain ⟨h1, _, h3⟩ := MainPy.ra_jsonOk cfg b a st body h
  exact ⟨h1, h3⟩

/-- C8 (witness): the amended theorem applied to a concrete successful
main.py run. -/
theorem C8_witness :
    "ok" = "ok" ∧ ∃ code tx,
      goodBroker.orderResp = OrderOutcome.http code (some okOrderBody) tx ∧ code < 400 :=
  C8_amended_thm goodCfg goodBroker alertBuy "ok" okOrderBody (by decide)

/-- C9: in app.py, whenever the order request is actually sent, its direction
is SELL as soon as the action field does not lower-case to buy: unrecognized
actions are translated to SELL rather than rejected. -/
theorem C9_thm (cfg : AppPy.Config) (b : Broker) (s : AppPy.Signal)
    (a e d : String) (q : Rat)
    (ha : s.action = some a) (hb : lower a ≠ "buy")
    (h : NetCall.position e d q ∈ (AppPy.tradingview_webhook cfg b (some s)).2) :
    d = "SELL" := by
  rcases AppPy.webhook_trace cfg b (some s) _ h with hses | ⟨s2, q2, hsome, hpos⟩
  · exact absurd hses (by simp)
  · obtain rfl : s2 = s := (Option.some.inj hsome).symm
    injection hpos with h1 h2 h3
    rw [h2]
    unfold AppPy.signalDirection
    rw [ha]
    simp only [Option.getD_some]
    rw [if_neg (by simpa using hb)]

/-- C9 (witness): the theorem applied to the signal with action close, on
which the order call with direction SELL actually happens. -/
theorem C9_witness :
    NetCall.position "XAUUSD" "SELL" 2 ∈
      (AppPy.tradingview_webhook goodAppCfg goodBroker (some sigClose)).2 ∧
    "SELL" = "SELL" :=
  ⟨by decide,
   C9_thm goodAppCfg goodBroker sigClose "close" "XAUUSD" "SELL" 2 rfl (by decide) (by decide)⟩

/-- C10: in main.py, when the broker order endpoint answers an HTTP success
whose JSON body carries a top-level error key, receive_alert never returns
the success object: the outcome is an HTTPException, because success
classification tests the presence of the error key in the returned
dictionary rather than the HTTP status alone. -/
theorem C10_thm (cfg : MainPy.Config) (b : Broker) (a : MainPy.Alert)
    (st : Nat) (body : JsonObj) (tx : String)
    (ho : b.orderResp = OrderOutcome.http st (some body) tx) (hst : st < 400)
    (he : hasKey body "error" = true) :
    ∃ code detail,
      (MainPy.receive_alert cfg b a).1 = MainPy.FastApiResult.httpError code detail := by
  cases hr : (MainPy.receive_alert cfg b a).1 with
  | httpError c dd => exact ⟨c, dd, rfl⟩
  | jsonOk s2 b2 =>
    obtain ⟨_, hk, code, tx2, ho2, _⟩ := MainPy.ra_jsonOk cfg b a s2 b2 hr
    rw [ho] at ho2
    injection ho2 with hcode hbody htx
    rw [← Option.some.inj hbody] at hk
    exact absurd he (by simp [hk])

/-- C10 (witness): the theorem applied to the broker that answers the order
call with 200 and the body containing an error key. -/
theorem C10_witness :
    ∃ code detail,
      (MainPy.receive_alert goodCfg broker200err alertBuy).1
        = MainPy.FastApiResult.httpError code detail :=
  C10_thm goodCfg broker200err alertBuy 200 [("error", "boom")] "t" rfl (by decide) (by decide)

end Relay
